import Mathlib

/-!
Verification of the Survey123 ingestion, validation and aggregation core
(modules ingesta, analisis and modelos of the informes_med repository).

The tabular data model is a shallow embedding of the pandas DataFrame as
used by the source: a DataFrame is a list of column names together with a
list of rows, each row an association list from column name to cell value.
Cell values are missing (NaN), rational numbers (abstracting Python
floats and ints; no claim here depends on float rounding), strings, or
datetimes (abstracted to an integer timestamp).
-/

/-- A cell of the table: NaN, a number, a string, or a datetime value. -/
inductive Cell where
  | na : Cell
  | num : ℚ → Cell
  | str : String → Cell
  | date : Int → Cell
deriving DecidableEq, Repr

/-- A row: association list from column name to cell, first binding wins. -/
abbrev Fila := List (String × Cell)

/-- The tabular dataset: column names plus rows. -/
structure DataFrame where
  cols : List String
  rows : List Fila
deriving DecidableEq, Repr

/-- Well-formed table: every row carries exactly the declared columns. -/
def DataFrame.wf (df : DataFrame) : Prop :=
  ∀ r ∈ df.rows, r.map Prod.fst = df.cols

instance (df : DataFrame) : Decidable df.wf := by
  unfold DataFrame.wf; infer_instance

/-- Access one cell of a row by column name (missing key reads as NaN). -/
def get_cell : Fila → String → Cell
  | [], _ => Cell.na
  | (k, v) :: r, c => if k = c then v else get_cell r c

/-- One column of the table, as the list of its cells in row order. -/
def columna (df : DataFrame) (c : String) : List Cell :=
  df.rows.map (fun r => get_cell r c)

/-- pandas DataFrame.empty: true when either axis has length zero. -/
def df_empty (df : DataFrame) : Bool :=
  df.rows.isEmpty || df.cols.isEmpty

/-- pandas is_numeric_dtype: a column holds a numeric dtype exactly when
no cell is a string or datetime (an all NaN column is float64). -/
def is_numeric_dtype (cells : List Cell) : Bool :=
  cells.all (fun c => match c with
    | Cell.str _ => false
    | Cell.date _ => false
    | _ => true)

/-- The required-column list of validar_estructura (the default used when
no configuration object is supplied). Source: modulos/ingesta.py. -/
def columnas_requeridas : List String :=
  ["Shape", "X", "Y", "start", "id_punto", "estado_obr",
   "fecha_dilig", "nombre_int", "num_cuadri", "trabajador"]

/-- Structured form of the error strings appended to errores_validacion by
validar_estructura and validar_coordenadas. -/
inductive ErrorValidacion where
  | columnasFaltantes : List String → ErrorValidacion
  | archivoVacio : ErrorValidacion
  | columnaNoNumerica : String → ErrorValidacion
deriving DecidableEq, Repr

/-- The loop of validar_estructura collecting required columns absent from
the table, in required-list order. -/
def columnas_faltantes (df : DataFrame) : List String :=
  columnas_requeridas.filter (fun c => decide (c ∉ df.cols))

/-- ProcesadorSurvey123.validar_coordenadas: the X and Y columns must be
of numeric dtype; the Medellin bounding-box check only logs a warning and
never adds an error, so it does not appear in the result. -/
def validar_coordenadas (df : DataFrame) : Bool × List ErrorValidacion :=
  if !(is_numeric_dtype (columna df "X")) then
    (false, [ErrorValidacion.columnaNoNumerica "X"])
  else if !(is_numeric_dtype (columna df "Y")) then
    (false, [ErrorValidacion.columnaNoNumerica "Y"])
  else (true, [])

/-- ProcesadorSurvey123.validar_estructura on a freshly constructed
processor (errores_validacion starts empty): missing-column check, then
emptiness check, then coordinate check. -/
def validar_estructura (df : DataFrame) : Bool × List ErrorValidacion :=
  if columnas_faltantes df ≠ [] then
    (false, [ErrorValidacion.columnasFaltantes (columnas_faltantes df)])
  else if df_empty df then
    (false, [ErrorValidacion.archivoVacio])
  else validar_coordenadas df

/-- C1: with every required column present, a nonempty row list and
numeric coordinate columns, validar_estructura returns true with no
errors; with some required column missing it returns false and the
missing-field list is exactly the required columns absent from the
table. -/
theorem C1_validar_estructura (df : DataFrame) :
    ((∀ c ∈ columnas_requeridas, c ∈ df.cols) → df.rows ≠ [] →
      is_numeric_dtype (columna df "X") = true →
      is_numeric_dtype (columna df "Y") = true →
      validar_estructura df = (true, [])) ∧
    ((∃ c ∈ columnas_requeridas, c ∉ df.cols) →
      validar_estructura df =
        (false, [ErrorValidacion.columnasFaltantes (columnas_faltantes df)]) ∧
      ∀ c, c ∈ columnas_faltantes df ↔ (c ∈ columnas_requeridas ∧ c ∉ df.cols)) := by
  constructor
  · intro hreq hrows hX hY
    have hfal : columnas_faltantes df = [] := by
      apply List.filter_eq_nil_iff.mpr
      intro c hc
      simpa using hreq c hc
    have hcols : df.cols ≠ [] := by
      intro hnil
      have := hreq "Shape" (by simp [columnas_requeridas])
      simp [hnil] at this
    have hempty : df_empty df = false := by
      simp [df_empty, List.isEmpty_iff, hrows, hcols]
    simp [validar_estructura, hfal, hempty, validar_coordenadas, hX, hY]
  · intro hex
    obtain ⟨c, hc, hnc⟩ := hex
    have hmem : c ∈ columnas_faltantes df := by
      simp [columnas_faltantes, List.mem_filter, hc, hnc]
    have hne : columnas_faltantes df ≠ [] := by
      intro hnil; rw [hnil] at hmem; simp at hmem
    refine ⟨by simp [validar_estructura, hne], ?_⟩
    intro c'
    simp [columnas_faltantes, List.mem_filter]

/-- Concrete instance discharging the hypotheses of C1: a table with all
ten required columns, one row and numeric coordinates validates cleanly,
and a table missing the coordinate columns reports exactly those. -/
theorem C1_validar_estructura_witness :
    validar_estructura
      ⟨columnas_requeridas,
        [[("Shape", Cell.str "p"), ("X", Cell.num (-76)), ("Y", Cell.num 6),
          ("start", Cell.date 0), ("id_punto", Cell.str "A1"),
          ("estado_obr", Cell.str "Finalizada"), ("fecha_dilig", Cell.date 1),
          ("nombre_int", Cell.str "Ana"), ("num_cuadri", Cell.num 1),
          ("trabajador", Cell.num 2)]]⟩ = (true, []) :=
  (C1_validar_estructura _).1 (by decide) (by decide) (by decide) (by decide)

/-!
Type Normalizer: ProcesadorSurvey123.limpiar_datos.
-/

/-- The numeric columns coerced by limpiar_datos. -/
def columnas_numericas : List String :=
  ["num_cuadri", "trabajador", "cant_ayuda", "cant_ofici",
   "cant_opera", "cant_auxil", "cant_otros", "num_total_",
   "total_hora", "horas_retr", "horas_mini", "horas_volq",
   "horas_comp", "horas_otra"]

/-- The text columns cleaned by limpiar_datos. -/
def columnas_texto : List String := ["id_punto", "nombre_int", "maquinaria"]

/-- The date columns converted by limpiar_datos. -/
def columnas_fecha : List String := ["fecha_dilig", "start"]

/-- Parse a run of decimal digits, all of them, into a natural number. -/
def parse_digitos : List Char → Nat → Option Nat
  | [], acc => some acc
  | c :: rest, acc =>
      if c.isDigit then parse_digitos rest (acc * 10 + (c.toNat - 48))
      else none

/-- Split a character list at the first decimal point, returning the
integer part and, when a point is present, the remainder. -/
def dividir_punto : List Char → List Char × Option (List Char)
  | [] => ([], none)
  | c :: rest =>
      if c = '.' then ([], some rest)
      else
        let (a, b) := dividir_punto rest
        (c :: a, b)

/-- Numeric string parsing as used by pd.to_numeric: an optional sign, an
integer part and an optional decimal fraction. Scientific notation and
thousands separators are abstracted away; no claim depends on them. -/
def parse_num (s : String) : Option ℚ :=
  let (neg, cuerpo) :=
    match s.toList with
    | '-' :: rest => (true, rest)
    | l => (false, l)
  let aplicar (q : ℚ) : ℚ := if neg then -q else q
  match dividir_punto cuerpo with
  | (ent, none) =>
      match parse_digitos ent 0 with
      | some n => if ent = [] then none else some (aplicar n)
      | none => none
  | (ent, some frac) =>
      if ent = [] && frac = [] then none
      else
        match parse_digitos ent 0, parse_digitos frac 0 with
        | some n, some f =>
            some (aplicar ((n : ℚ) + (f : ℚ) / ((10 : ℚ) ^ frac.length)))
        | _, _ => none

/-- pd.to_numeric with errors equal to coerce: numbers pass through,
parseable strings become numbers, everything else becomes NaN. -/
def to_numeric (c : Cell) : Cell :=
  match c with
  | Cell.num q => Cell.num q
  | Cell.str s =>
      match parse_num s with
      | some q => Cell.num q
      | none => Cell.na
  | _ => Cell.na

/-- Series.fillna(0). -/
def fillna0 (c : Cell) : Cell :=
  match c with
  | Cell.na => Cell.num 0
  | c => c

/-- pd.to_datetime with errors equal to coerce: datetimes pass through,
everything else is abstracted to NaT (string and epoch-number parsing of
dates is not modelled; no claim depends on it). -/
def to_datetime (c : Cell) : Cell :=
  match c with
  | Cell.date d => Cell.date d
  | _ => Cell.na

/-- Series.astype(str) on one cell: strings stay, NaN stringifies to the
literal text nan, numbers and dates to their textual form. -/
def astype_str (c : Cell) : String :=
  match c with
  | Cell.str s => s
  | Cell.na => "nan"
  | Cell.num q => toString q
  | Cell.date d => toString d

/-- Python str.strip on a character list: drop whitespace from the front,
then from the back. -/
def strip_lista (l : List Char) : List Char :=
  ((l.dropWhile Char.isWhitespace).reverse.dropWhile Char.isWhitespace).reverse

/-- Python str.strip. -/
def strip_str (s : String) : String :=
  String.mk (strip_lista s.toList)

/-- The per-cell action of limpiar_datos for a given column name: date
columns through to_datetime, numeric columns through to_numeric plus
fillna(0), text columns through astype(str).str.strip(), all other
columns untouched. -/
def limpiar_celda (c : String) (v : Cell) : Cell :=
  if c ∈ columnas_fecha then to_datetime v
  else if c ∈ columnas_numericas then fillna0 (to_numeric v)
  else if c ∈ columnas_texto then Cell.str (strip_str (astype_str v))
  else v

/-- ProcesadorSurvey123.limpiar_datos: the column-wise cleaning applied to
a copy of the loaded table; only columns present in the table are
touched, which the per-row association list realizes directly. -/
def limpiar_datos (df : DataFrame) : DataFrame :=
  ⟨df.cols, df.rows.map (fun r => r.map (fun p => (p.1, limpiar_celda p.1 p.2)))⟩

/-!
Helper lemmas: cell access through a column-wise map, and idempotence of
the stripping and cleaning primitives.
-/

theorem get_cell_map (f : String → Cell → Cell) (r : Fila) (c : String) :
    get_cell (r.map (fun p => (p.1, f p.1 p.2))) c =
      if c ∈ r.map Prod.fst then f c (get_cell r c) else Cell.na := by
  induction r with
  | nil => simp [get_cell]
  | cons p t ih =>
      obtain ⟨k, v⟩ := p
      by_cases hk : k = c
      · subst hk; simp [get_cell]
      · have hck : ¬ c = k := fun h => hk h.symm
        simp only [List.map_cons, get_cell, hk, if_false, ih, ite_eq_ite]
        by_cases hmem : c ∈ List.map Prod.fst t
        · simp [hmem, List.mem_cons]
        · simp [hmem, List.mem_cons, hck]

theorem dropWhile_head_false {α : Type} {p : α → Bool} :
    ∀ {l : List α} {a : α}, (l.dropWhile p).head? = some a → p a = false := by
  intro l
  induction l with
  | nil => intro a h; simp [List.dropWhile] at h
  | cons x t ih =>
      intro a h
      cases hx : p x
      · rw [List.dropWhile_cons_of_neg (by simp [hx])] at h
        simp at h
        subst h
        exact hx
      · rw [List.dropWhile_cons_of_pos (by simp [hx])] at h
        exact ih h

theorem dropWhile_eq_self_of_head {α : Type} {p : α → Bool} {l : List α}
    (h : ∀ a, l.head? = some a → p a = false) : l.dropWhile p = l := by
  cases l with
  | nil => rfl
  | cons x t => rw [List.dropWhile_cons_of_neg (by simp [h x rfl])]

theorem dropWhile_es_sufijo {α : Type} (p : α → Bool) :
    ∀ l : List α, l.dropWhile p <:+ l := by
  intro l
  induction l with
  | nil => simp
  | cons x t ih =>
      cases hx : p x
      · rw [List.dropWhile_cons_of_neg (by simp [hx])]
      · rw [List.dropWhile_cons_of_pos (by simp [hx])]
        exact ih.trans (List.suffix_cons x t)

theorem getLast?_de_sufijo {α : Type} {l₁ l₂ : List α} (h : l₂ <:+ l₁)
    (hne : l₂ ≠ []) : l₁.getLast? = l₂.getLast? := by
  obtain ⟨pre, rfl⟩ := h
  exact List.getLast?_append_of_ne_nil _ hne

/-- A character list is stripped when neither end carries whitespace. -/
def es_stripped (l : List Char) : Prop :=
  (∀ a, l.head? = some a → a.isWhitespace = false) ∧
  (∀ a, l.getLast? = some a → a.isWhitespace = false)

theorem strip_lista_es_stripped (l : List Char) : es_stripped (strip_lista l) := by
  unfold strip_lista
  set L1 := l.dropWhile Char.isWhitespace with hL1
  set L2 := L1.reverse.dropWhile Char.isWhitespace with hL2
  constructor
  · intro a ha
    rw [List.head?_reverse] at ha
    rcases hnil : L2 with _ | ⟨x, t⟩
    · rw [hnil] at ha; simp at ha
    · have hsuf : L2 <:+ L1.reverse := hL2 ▸ dropWhile_es_sufijo _ _
      have hult := getLast?_de_sufijo hsuf (by rw [hnil]; simp)
      have ha2 : L1.head? = some a := by
        rw [← List.getLast?_reverse, hult]; exact ha
      exact dropWhile_head_false (hL1 ▸ ha2)
  · intro a ha
    rw [List.getLast?_reverse] at ha
    exact dropWhile_head_false (hL2 ▸ ha)

theorem strip_lista_de_stripped {l : List Char} (h : es_stripped l) :
    strip_lista l = l := by
  unfold strip_lista
  rw [dropWhile_eq_self_of_head h.1]
  rw [dropWhile_eq_self_of_head (by intro a ha; rw [List.head?_reverse] at ha; exact h.2 a ha)]
  exact List.reverse_reverse l

theorem strip_lista_idem (l : List Char) :
    strip_lista (strip_lista l) = strip_lista l :=
  strip_lista_de_stripped (strip_lista_es_stripped l)

theorem strip_str_idem (s : String) : strip_str (strip_str s) = strip_str s := by
  unfold strip_str
  have : (String.mk (strip_lista s.toList)).toList = strip_lista s.toList := rfl
  rw [this, strip_lista_idem]

theorem limpiar_celda_idem (c : String) (v : Cell) :
    limpiar_celda c (limpiar_celda c v) = limpiar_celda c v := by
  unfold limpiar_celda
  by_cases h1 : c ∈ columnas_fecha
  · simp only [h1, if_pos]
    cases v <;> rfl
  · by_cases h2 : c ∈ columnas_numericas
    · simp only [h1, h2, if_neg, if_pos, not_false_iff]
      cases v with
      | na => rfl
      | num q => rfl
      | date d => rfl
      | str s =>
          simp only [to_numeric]
          cases parse_num s <;> rfl
    · by_cases h3 : c ∈ columnas_texto
      · simp only [h1, h2, h3, if_neg, if_pos, not_false_iff]
        simp [astype_str, strip_str_idem]
      · simp only [h1, h2, h3, if_neg, not_false_iff]

theorem columna_limpiar (df : DataFrame) (c : String) :
    columna (limpiar_datos df) c =
      df.rows.map (fun r =>
        if c ∈ r.map Prod.fst then limpiar_celda c (get_cell r c) else Cell.na) := by
  unfold columna limpiar_datos
  simp only [List.map_map]
  apply List.map_congr_left
  intro r _
  exact get_cell_map _ r c

/-- C8: the cleaning step is idempotent on the designated numeric and
text columns; cleaning an already cleaned table leaves every such column
unchanged. -/
theorem C8_limpiar_datos_idempotente (df : DataFrame) (c : String)
    (hc : c ∈ columnas_numericas ∨ c ∈ columnas_texto) :
    columna (limpiar_datos (limpiar_datos df)) c = columna (limpiar_datos df) c := by
  rw [columna_limpiar, columna_limpiar]
  unfold limpiar_datos
  simp only [List.map_map]
  apply List.map_congr_left
  intro r _
  simp only [Function.comp]
  have hkeys : (r.map (fun p => (p.1, limpiar_celda p.1 p.2))).map Prod.fst =
      r.map Prod.fst := by
    simp [List.map_map, Function.comp]
  rw [hkeys]
  by_cases hmem : c ∈ r.map Prod.fst
  · rw [if_pos hmem, if_pos hmem, get_cell_map, if_pos hmem, limpiar_celda_idem]
  · rw [if_neg hmem, if_neg hmem]

/-- Instance of C8 with the hypothesis discharged: re-cleaning the cleaned
single-row table leaves the num_total_ and id_punto columns unchanged. -/
theorem C8_limpiar_datos_idempotente_witness :
    columna (limpiar_datos (limpiar_datos
      ⟨["num_total_", "id_punto"],
        [[("num_total_", Cell.str "7"), ("id_punto", Cell.str " A1 ")]]⟩)) "num_total_" =
    columna (limpiar_datos
      ⟨["num_total_", "id_punto"],
        [[("num_total_", Cell.str "7"), ("id_punto", Cell.str " A1 ")]]⟩) "num_total_" :=
  C8_limpiar_datos_idempotente _ "num_total_" (Or.inl (by decide))

/-- C4 counterexample: a truly missing cell of the text column id_punto is
not preserved as the empty string; astype(str) stringifies NaN to the
text nan, so the cleaned cell is the string nan. -/
theorem C4_counterexample :
    columna (limpiar_datos ⟨["id_punto"], [[("id_punto", Cell.na)]]⟩) "id_punto" =
      [Cell.str "nan"] ∧ Cell.str "nan" ≠ Cell.str "" := by
  constructor
  · rfl
  · decide

theorem limpiar_celda_texto {c : String} (hc : c ∈ columnas_texto) (v : Cell) :
    limpiar_celda c v = Cell.str (strip_str (astype_str v)) := by
  fin_cases hc <;>
    · unfold limpiar_celda
      rw [if_neg (by decide), if_neg (by decide), if_pos (by decide)]

/-- C4 amended: every cell of a designated text column is stringified and
stripped of surrounding whitespace; a string cell becomes its stripped
value, while a truly missing cell becomes the literal string nan (the
textual form of NaN), not the empty string. -/
theorem C4_limpiar_texto (df : DataFrame) (c : String)
    (hc : c ∈ columnas_texto) (hwf : df.wf) (hcol : c ∈ df.cols) :
    columna (limpiar_datos df) c =
      (columna df c).map (fun v => Cell.str (strip_str (astype_str v))) ∧
    (∀ s, astype_str (Cell.str s) = s) ∧ astype_str Cell.na = "nan" := by
  refine ⟨?_, fun s => rfl, rfl⟩
  rw [columna_limpiar]
  unfold columna
  rw [List.map_map]
  apply List.map_congr_left
  intro r hr
  have hmem : c ∈ r.map Prod.fst := by rw [hwf r hr]; exact hcol
  rw [if_pos hmem, limpiar_celda_texto hc, Function.comp]

/-- Instance of C4 amended with hypotheses discharged: the cleaned
id_punto column of a concrete two-row table is the stripped stringified
original column. -/
theorem C4_limpiar_texto_witness :
    columna (limpiar_datos
      ⟨["id_punto"], [[("id_punto", Cell.str "  A1 ")], [("id_punto", Cell.na)]]⟩) "id_punto" =
      (columna ⟨["id_punto"], [[("id_punto", Cell.str "  A1 ")], [("id_punto", Cell.na)]]⟩
        "id_punto").map (fun v => Cell.str (strip_str (astype_str v))) :=
  (C4_limpiar_texto _ "id_punto" (by decide) (by decide) (by decide)).1

/-!
C5: behaviour of the coordinate check on non-numeric columns.
-/

/-- Modelled from the spec: the best-effort whole-column coercion the spec
attributes to coordinate validation succeeds when every cell already is
numeric, is missing, or is a string that parses as a number. The source
of validar_coordenadas contains no such coercion; this definition follows
the spec wording so the claimed behaviour can be compared with the code. -/
def coercion_columna_exitosa (cells : List Cell) : Bool :=
  cells.all (fun c => match c with
    | Cell.num _ => true
    | Cell.na => true
    | Cell.str s => (parse_num s).isSome
    | Cell.date _ => false)

/-- Modelled from the spec: coordinate validation as the claim describes
it, failing only when the whole-column coercion of X or of Y fails. -/
def validar_coordenadas_spec (df : DataFrame) : Bool × List ErrorValidacion :=
  if !(coercion_columna_exitosa (columna df "X")) then
    (false, [ErrorValidacion.columnaNoNumerica "X"])
  else if !(coercion_columna_exitosa (columna df "Y")) then
    (false, [ErrorValidacion.columnaNoNumerica "Y"])
  else (true, [])

/-- C5 counterexample: on a table whose X column holds the numeric string
-75.5 the claimed best-effort coercion succeeds, so per the claim the
validation would not fail; the code never attempts a coercion and fails
on the non-numeric dtype. -/
theorem C5_counterexample :
    validar_coordenadas ⟨["X", "Y"], [[("X", Cell.str "-75.5"), ("Y", Cell.num 6)]]⟩ =
      (false, [ErrorValidacion.columnaNoNumerica "X"]) ∧
    validar_coordenadas_spec ⟨["X", "Y"], [[("X", Cell.str "-75.5"), ("Y", Cell.num 6)]]⟩ =
      (true, []) := by
  constructor <;> rfl

/-- C5 amended: if the X column is not of numeric dtype, validation
returns false immediately with an error naming X; if X is numeric but Y
is not, it returns false naming Y; with both numeric it succeeds. No
coercion of the column is attempted. -/
theorem C5_validar_coordenadas (df : DataFrame) :
    (is_numeric_dtype (columna df "X") = false →
      validar_coordenadas df = (false, [ErrorValidacion.columnaNoNumerica "X"])) ∧
    (is_numeric_dtype (columna df "X") = true →
      is_numeric_dtype (columna df "Y") = false →
      validar_coordenadas df = (false, [ErrorValidacion.columnaNoNumerica "Y"])) ∧
    (is_numeric_dtype (columna df "X") = true →
      is_numeric_dtype (columna df "Y") = true →
      validar_coordenadas df = (true, [])) := by
  refine ⟨fun hX => ?_, fun hX hY => ?_, fun hX hY => ?_⟩
  · simp [validar_coordenadas, hX]
  · simp [validar_coordenadas, hX, hY]
  · simp [validar_coordenadas, hX, hY]

/-- Instance of C5 amended with the hypothesis discharged: a string-typed
X column makes the coordinate check fail naming X. -/
theorem C5_validar_coordenadas_witness :
    validar_coordenadas ⟨["X", "Y"], [[("X", Cell.str "-75.5"), ("Y", Cell.num 6)]]⟩ =
      (false, [ErrorValidacion.columnaNoNumerica "X"]) :=
  (C5_validar_coordenadas _).1 (by decide)

/-!
C9: behaviour on tables with zero rows, and the processing pipeline.
-/

/-- C9 counterexample: a zero-row table that also misses required columns
fails with the missing-columns error, not with the dataset-is-empty
error, because validar_estructura checks columns first. -/
theorem C9_counterexample :
    validar_estructura ⟨[], []⟩ =
      (false, [ErrorValidacion.columnasFaltantes columnas_requeridas]) ∧
    ErrorValidacion.archivoVacio ∉ (validar_estructura ⟨[], []⟩).2 := by
  constructor
  · rfl
  · decide

/-!
ProcesadorSurvey123.calcular_totales and validar_consistencia.
-/

/-- The five worker-category columns summed by calcular_totales. -/
def columnas_trabajadores : List String :=
  ["cant_ayuda", "cant_ofici", "cant_opera", "cant_auxil", "cant_otros"]

/-- The machinery-hours columns summed by calcular_totales. -/
def columnas_horas_maquinaria : List String :=
  ["horas_retr", "horas_mini", "horas_volq", "horas_comp", "horas_otra"]

/-- The numeric value a cell contributes to a skipna pandas reduction:
NaN contributes zero, as do non-numeric cells (which the relevant columns
never hold after cleaning). -/
def cell_val : Cell → ℚ
  | Cell.num q => q
  | _ => 0

/-- Is the cell an actual number. -/
def es_num : Cell → Bool
  | Cell.num _ => true
  | _ => false

/-- DataFrame row-wise sum over a column list with skipna semantics. -/
def suma_fila (r : Fila) (cols : List String) : ℚ :=
  (cols.map (fun c => cell_val (get_cell r c))).sum

/-- Column assignment df[nombre] = values: the new binding shadows any
previous one in each row; a fresh name is appended to the column list. -/
def agregar_columna (df : DataFrame) (nombre : String) (f : Fila → Cell) : DataFrame :=
  ⟨if nombre ∈ df.cols then df.cols else df.cols ++ [nombre],
   df.rows.map (fun r => (nombre, f r) :: r)⟩

/-- First block of calcular_totales: when any worker column exists, add
the column total_calculado_trabajadores holding the row-wise sum of the
existing worker columns. -/
def agregar_total_trabajadores (df : DataFrame) : DataFrame :=
  if columnas_trabajadores.filter (fun c => decide (c ∈ df.cols)) ≠ [] then
    agregar_columna df "total_calculado_trabajadores"
      (fun r => Cell.num (suma_fila r
        (columnas_trabajadores.filter (fun c => decide (c ∈ df.cols)))))
  else df

/-- Second block of calcular_totales: when any machinery-hours column
exists, add the column total_horas_maquinaria holding the row-wise sum of
the existing hours columns. -/
def agregar_horas_maquinaria (df1 : DataFrame) : DataFrame :=
  if columnas_horas_maquinaria.filter (fun c => decide (c ∈ df1.cols)) ≠ [] then
    agregar_columna df1 "total_horas_maquinaria"
      (fun r => Cell.num (suma_fila r
        (columnas_horas_maquinaria.filter (fun c => decide (c ∈ df1.cols)))))
  else df1

/-- ProcesadorSurvey123.calcular_totales: add the computed worker total
over whichever worker columns exist, then the machinery-hours total over
whichever hours columns exist. -/
def calcular_totales (df : DataFrame) : DataFrame :=
  agregar_horas_maquinaria (agregar_total_trabajadores df)

/-- Elementwise subtraction of two cells, NaN-propagating as in pandas. -/
def resta_celdas : Cell → Cell → Cell
  | Cell.num x, Cell.num y => Cell.num (x - y)
  | _, _ => Cell.na

/-- Elementwise absolute value, NaN-propagating. -/
def abs_celda : Cell → Cell
  | Cell.num x => Cell.num |x|
  | c => c

/-- The comparison cell > 0 as pandas evaluates it: NaN compares false. -/
def celda_pos : Cell → Bool
  | Cell.num x => decide (0 < x)
  | _ => false

/-- ProcesadorSurvey123.validar_consistencia: when both the reported and
the computed total column exist, the number of rows whose absolute
difference is positive; this count is only surfaced as a warning. -/
def validar_consistencia (df : DataFrame) : Nat :=
  if "num_total_" ∈ df.cols ∧ "total_calculado_trabajadores" ∈ df.cols then
    (df.rows.filter (fun r =>
      celda_pos (abs_celda (resta_celdas (get_cell r "num_total_")
        (get_cell r "total_calculado_trabajadores"))))).length
  else 0

/-- ProcesadorSurvey123.procesar_archivo_completo after the file-loading
step: validation failure aborts with the errors before the cleaning,
total-calculation and consistency stages run; otherwise those stages run
in order and the consistency-warning count accompanies the result. -/
def procesar_archivo (df : DataFrame) : Except (List ErrorValidacion) (DataFrame × Nat) :=
  if (validar_estructura df).1 = false then
    Except.error (validar_estructura df).2
  else
    let dft := calcular_totales (limpiar_datos df)
    Except.ok (dft, validar_consistencia dft)

/-- C9 amended: every zero-row table fails validation (with the
dataset-is-empty error exactly when all required columns are present,
and the missing-columns error otherwise), and the pipeline then halts
with the validation errors before normalization, total calculation or
any aggregation runs. -/
theorem C9_tabla_vacia (df : DataFrame) (hrows : df.rows = []) :
    (validar_estructura df).1 = false ∧
    ((∀ c ∈ columnas_requeridas, c ∈ df.cols) →
      validar_estructura df = (false, [ErrorValidacion.archivoVacio])) ∧
    procesar_archivo df = Except.error (validar_estructura df).2 := by
  have hempty : df_empty df = true := by
    simp [df_empty, hrows]
  have hfst : (validar_estructura df).1 = false := by
    unfold validar_estructura
    by_cases hfal : columnas_faltantes df ≠ []
    · simp [hfal]
    · simp [hfal, hempty]
  refine ⟨hfst, ?_, ?_⟩
  · intro hreq
    have hfal : columnas_faltantes df = [] := by
      apply List.filter_eq_nil_iff.mpr
      intro c hc
      simpa using hreq c hc
    simp [validar_estructura, hfal, hempty]
  · unfold procesar_archivo
    simp [hfst]

/-- Instance of C9 amended with the hypothesis discharged: the zero-row
table that carries all required columns reports the dataset-is-empty
error. -/
theorem C9_tabla_vacia_witness :
    validar_estructura ⟨columnas_requeridas, []⟩ =
      (false, [ErrorValidacion.archivoVacio]) :=
  (C9_tabla_vacia ⟨columnas_requeridas, []⟩ rfl).2.1 (by decide)

/-!
C6: the consistency dichotomy between reported and computed worker
totals.
-/

theorem get_cell_cons_mismo (c : String) (v : Cell) (r : Fila) :
    get_cell ((c, v) :: r) c = v := by
  simp [get_cell]

theorem get_cell_cons_otro {k c : String} (h : ¬ k = c) (v : Cell) (r : Fila) :
    get_cell ((k, v) :: r) c = get_cell r c := by
  simp [get_cell, h]

theorem filter_length_map {α β : Type} (g : α → β) (p : β → Bool) :
    ∀ l : List α, ((l.map g).filter p).length = (l.filter (fun a => p (g a))).length := by
  intro l
  induction l with
  | nil => rfl
  | cons a t ih =>
      simp only [List.map_cons, List.filter_cons]
      cases p (g a) <;> simp [ih]

theorem mem_cols_agregar (d : DataFrame) (n : String) (f : Fila → Cell) (c : String) :
    c ∈ (agregar_columna d n f).cols ↔ c ∈ d.cols ∨ c = n := by
  unfold agregar_columna
  by_cases h : n ∈ d.cols
  · simp only [h, if_pos]
    constructor
    · exact Or.inl
    · rintro (hc | rfl)
      · exact hc
      · exact h
  · simp [h]

theorem validar_consistencia_agregar (d : DataFrame) (n : String) (f : Fila → Cell)
    (hn1 : n ≠ "num_total_") (hn2 : n ≠ "total_calculado_trabajadores") :
    validar_consistencia (agregar_columna d n f) = validar_consistencia d := by
  have h1 : ("num_total_" ∈ (agregar_columna d n f).cols) = ("num_total_" ∈ d.cols) := by
    apply propext
    rw [mem_cols_agregar]
    constructor
    · rintro (h | h)
      · exact h
      · exact absurd h.symm hn1
    · exact Or.inl
  have h2 : ("total_calculado_trabajadores" ∈ (agregar_columna d n f).cols) =
      ("total_calculado_trabajadores" ∈ d.cols) := by
    apply propext
    rw [mem_cols_agregar]
    constructor
    · rintro (h | h)
      · exact h
      · exact absurd h.symm hn2
    · exact Or.inl
  unfold validar_consistencia
  simp only [h1, h2]
  by_cases hc : "num_total_" ∈ d.cols ∧ "total_calculado_trabajadores" ∈ d.cols
  · rw [if_pos hc, if_pos hc]
    show ((d.rows.map (fun r => (n, f r) :: r)).filter _).length = _
    rw [filter_length_map]
    congr 1
    apply List.filter_congr
    intro r _
    simp only [get_cell]
    rw [if_neg hn1, if_neg hn2]
  · rw [if_neg hc, if_neg hc]

theorem validar_consistencia_horas (d : DataFrame) :
    validar_consistencia (agregar_horas_maquinaria d) = validar_consistencia d := by
  unfold agregar_horas_maquinaria
  split
  · exact validar_consistencia_agregar d _ _ (by decide) (by decide)
  · rfl

/-- The concrete row of the claim: category counts 2, 3, 0, 0, 0 and a
reported total given as parameter. -/
def df6 (total : ℚ) : DataFrame :=
  ⟨columnas_trabajadores ++ ["num_total_"],
   [[("cant_ayuda", Cell.num 2), ("cant_ofici", Cell.num 3), ("cant_opera", Cell.num 0),
     ("cant_auxil", Cell.num 0), ("cant_otros", Cell.num 0),
     ("num_total_", Cell.num total)]]⟩

theorem cuenta_inconsistencias (df : DataFrame)
    (hw : ∀ c ∈ columnas_trabajadores, c ∈ df.cols)
    (ht : "num_total_" ∈ df.cols)
    (hnum : ∀ r ∈ df.rows, es_num (get_cell r "num_total_") = true) :
    validar_consistencia (calcular_totales df) =
      (df.rows.filter (fun r =>
        decide (suma_fila r columnas_trabajadores ≠
          cell_val (get_cell r "num_total_")))).length := by
  have hct : columnas_trabajadores.filter (fun c => decide (c ∈ df.cols)) =
      columnas_trabajadores := by
    apply List.filter_eq_self.mpr
    intro c hc
    simpa using hw c hc
  rw [show calcular_totales df = agregar_horas_maquinaria (agregar_total_trabajadores df)
      from rfl, validar_consistencia_horas]
  unfold agregar_total_trabajadores
  rw [hct, if_pos (by decide : columnas_trabajadores ≠ [])]
  unfold validar_consistencia
  rw [if_pos ?hcols]
  case hcols =>
    constructor
    · exact (mem_cols_agregar df _ _ _).mpr (Or.inl ht)
    · exact (mem_cols_agregar df _ _ _).mpr (Or.inr rfl)
  show ((df.rows.map _).filter _).length = _
  rw [filter_length_map]
  congr 1
  apply List.filter_congr
  intro r hr
  have hn := hnum r hr
  cases hcell : get_cell r "num_total_" with
  | na => rw [hcell] at hn; simp [es_num] at hn
  | str s => rw [hcell] at hn; simp [es_num] at hn
  | date d => rw [hcell] at hn; simp [es_num] at hn
  | num q =>
      rw [get_cell_cons_otro (by decide), get_cell_cons_mismo, hcell]
      simp only [resta_celdas, abs_celda, celda_pos, cell_val]
      rw [decide_eq_decide, abs_pos, sub_ne_zero]
      exact ne_comm

/-- C6: on a normalized table carrying the five worker columns and the
reported total, the consistency-warning count is exactly the number of
rows whose five-category sum differs from the reported total, so every
row either has an agreeing total or is counted, with no third outcome;
in particular the concrete row 2, 3, 0, 0, 0 with reported total 5 adds
no warning and the same row with total 6 adds exactly one. -/
theorem C6_totales_consistencia (df : DataFrame)
    (hw : ∀ c ∈ columnas_trabajadores, c ∈ df.cols)
    (ht : "num_total_" ∈ df.cols)
    (hnum : ∀ r ∈ df.rows, es_num (get_cell r "num_total_") = true) :
    validar_consistencia (calcular_totales df) =
      (df.rows.filter (fun r =>
        decide (suma_fila r columnas_trabajadores ≠
          cell_val (get_cell r "num_total_")))).length ∧
    validar_consistencia (calcular_totales (df6 5)) = 0 ∧
    validar_consistencia (calcular_totales (df6 6)) = 1 := by
  refine ⟨cuenta_inconsistencias df hw ht hnum, ?_, ?_⟩
  · rw [cuenta_inconsistencias (df6 5) (by decide) (by decide) (by decide)]
    simp [df6, suma_fila, get_cell, cell_val, columnas_trabajadores,
      List.filter_cons]
    norm_num
  · rw [cuenta_inconsistencias (df6 6) (by decide) (by decide) (by decide)]
    simp [df6, suma_fila, get_cell, cell_val, columnas_trabajadores,
      List.filter_cons]
    norm_num

/-- Instance of C6 with the hypotheses discharged at the concrete
passing row: reported total 5 against category sum 5 yields zero
consistency warnings. -/
theorem C6_totales_consistencia_witness :
    validar_consistencia (calcular_totales (df6 5)) = 0 :=
  (C6_totales_consistencia (df6 5) (by decide) (by decide)
    (by intro r hr; simp [df6] at hr; subst hr; rfl)).2.1

/-!
C10: the RecursosHumanos record model.
-/

/-- The dataclass RecursosHumanos of modulos/modelos.py. -/
structure RecursosHumanos where
  num_cuadrillas : Int
  trabajadores_por_cuadrilla : Int
  cant_ayudantes : Int
  cant_oficiales : Int
  cant_operadores : Int
  cant_auxiliares_transito : Int
  cant_otros : Int
  total_trabajadores : Int
  total_horas_trabajadas : ℚ
deriving DecidableEq, Repr

/-- The five-category sum used by post-init and the consistency check. -/
def RecursosHumanos.suma_categorias (r : RecursosHumanos) : Int :=
  r.cant_ayudantes + r.cant_oficiales + r.cant_operadores +
    r.cant_auxiliares_transito + r.cant_otros

/-- The post-init hook: a reported total of zero is overwritten with the
computed category sum. -/
def RecursosHumanos.post_init (r : RecursosHumanos) : RecursosHumanos :=
  if r.total_trabajadores = 0 then
    { r with total_trabajadores := r.suma_categorias }
  else r

/-- RecursosHumanos.validar_consistencia: the stored total equals the
recomputed category sum. -/
def RecursosHumanos.validar_consistencia (r : RecursosHumanos) : Bool :=
  decide (r.total_trabajadores = r.suma_categorias)

/-- Dataclass construction: the field values followed by the post-init
hook. -/
def RecursosHumanos.crear (nc tpc ca co cop caux cot tot : Int) (th : ℚ) :
    RecursosHumanos :=
  RecursosHumanos.post_init ⟨nc, tpc, ca, co, cop, caux, cot, tot, th⟩

/-- C10: a RecursosHumanos record constructed with reported total zero
ends up with the category sum as its total, and its consistency check
then always succeeds, whatever the category counts are. -/
theorem C10_total_cero_consistente (nc tpc ca co cop caux cot : Int) (th : ℚ) :
    (RecursosHumanos.crear nc tpc ca co cop caux cot 0 th).total_trabajadores =
      ca + co + cop + caux + cot ∧
    (RecursosHumanos.crear nc tpc ca co cop caux cot 0 th).validar_consistencia = true := by
  unfold RecursosHumanos.crear RecursosHumanos.post_init
  simp [RecursosHumanos.validar_consistencia, RecursosHumanos.suma_categorias]

/-!
AnalisisSurvey123.analizar_actividades_construccion: the activity
taxonomy, the per-group statistics, and the coverage figures.
-/

/-- Sum of one column, skipna, as Series.sum computes it. -/
def col_sum (df : DataFrame) (c : String) : ℚ :=
  ((columna df c).map cell_val).sum

/-- The count (datos[col] > 0).sum() of rows with a positive value. -/
def obras_con_col (df : DataFrame) (c : String) : Nat :=
  ((columna df c).filter celda_pos).length

/-- The fixed taxonomy grupos_actividades of
analizar_actividades_construccion. -/
def grupos_actividades : List (String × List String) :=
  [("preparacion_terreno",
      ["descapote", "a_mano", "a_maquina", "Tala_poda", "roceria_li"]),
   ("cerramientos_proteccion",
      ["cerramient", "tela_verde", "malla_nara", "teja_ondul", "cubierta_p",
       "pasarela_p", "proteccion", "protecci_vehicular"]),
   ("limpieza_mantenimiento", ["limpieza_e", "limpieza_s"]),
   ("infraestructura_hidrica", ["malla_esla", "canoas_rua", "bajantes", "tuberia_en"]),
   ("estructuras_seguridad",
      ["cerco_made", "pintura_ba", "pasamanos_", "barrera_me", "pintura_pa"]),
   ("elementos_servicio",
      ["aparatos_s", "puertas", "senal_vert", "reparacion", "ventanas", "teja_barro"]),
   ("pavimentacion", ["piso_adoqu", "piso_ado_1", "cordones_c"]),
   ("drenajes", ["carcamos_c", "Cunetas_co", "drenaje_pe"]),
   ("excavaciones",
      ["excav_manu", "excav_ma_1", "excav_meca", "excav_me_1", "excav_me_2",
       "excav_me_3", "explanacio", "explanac_1", "excav_terrazas"]),
   ("trabajos_roca", ["roca_cielo_cuña", "roca_cielo_martillo", "roca_pila_"]),
   ("concreto", ["e_concreto"]),
   ("cortes_taludes", ["corte_talu", "corte_ta_1", "corte_ta_2"]),
   ("transporte", ["transpor_1"])]

/-- The taxonomy columns actually present in the table, in list order. -/
def columnas_existentes (df : DataFrame) (cols : List String) : List String :=
  cols.filter (fun c => decide (c ∈ df.cols))

/-- total_grupo: the sum over the existing group columns of each column
sum. -/
def total_grupo (df : DataFrame) (cols : List String) : ℚ :=
  ((columnas_existentes df cols).map (col_sum df)).sum

/-- The group-level obras_con_actividad counter: incremented once per
existing column whose positive-row count is positive. -/
def obras_con_actividad_grupo (df : DataFrame) (cols : List String) : Nat :=
  ((columnas_existentes df cols).filter
    (fun c => decide (0 < obras_con_col df c))).length

/-- columnas_totales: the number of fields in the whole taxonomy. -/
def total_columnas_actividades : Nat :=
  (grupos_actividades.map (fun g => g.2.length)).sum

/-- columnas_con_datos: over all groups, the existing taxonomy columns
whose total is strictly positive. -/
def columnas_con_datos (df : DataFrame) : Nat :=
  (grupos_actividades.map (fun g =>
    ((columnas_existentes df g.2).filter
      (fun c => decide (0 < col_sum df c))).length)).sum

/-- porcentaje_cobertura as the source reports it, a value in 0 to 100. -/
def porcentaje_cobertura (df : DataFrame) : ℚ :=
  if 0 < total_columnas_actividades then
    (columnas_con_datos df : ℚ) / (total_columnas_actividades : ℚ) * 100
  else 0

/-- The coverage ratio the claim speaks about: the reported percentage
rescaled to the unit interval, that is columnas_con_datos divided by the
taxonomy size. -/
def cobertura_actividades (df : DataFrame) : ℚ :=
  (columnas_con_datos df : ℚ) / (total_columnas_actividades : ℚ)

/-- Modelled from the spec: the count of records having at least one
nonzero value among the category fields — the quantity the claim
attributes to the group-level obras_con_actividad figure. The source
increments per column, not per record; this definition follows the claim
wording so the two can be compared. -/
def registros_con_actividad_spec (df : DataFrame) (cols : List String) : Nat :=
  (df.rows.filter (fun r =>
    cols.any (fun c => decide (cell_val (get_cell r c) ≠ 0)))).length

/-- The one-row table of the C2 failing input: both cleaning-group
columns hold 1. -/
def df2 : DataFrame :=
  ⟨["limpieza_e", "limpieza_s"],
   [[("limpieza_e", Cell.num 1), ("limpieza_s", Cell.num 1)]]⟩

/-- C2: at the failing input, the group subtotal is the sum of the two
column sums as claimed, but the group-level obras_con_actividad counter
is 2 — one per field with a positive value — even though the table has a
single record, of which exactly one has a nonzero group field; a count
of records can never exceed the record count, so the code computes a
field count where the claim and the variable name promise a record
count. -/
theorem C2_obras_con_actividad :
    ("limpieza_mantenimiento", ["limpieza_e", "limpieza_s"]) ∈ grupos_actividades ∧
    total_grupo df2 ["limpieza_e", "limpieza_s"] = 2 ∧
    obras_con_actividad_grupo df2 ["limpieza_e", "limpieza_s"] = 2 ∧
    registros_con_actividad_spec df2 ["limpieza_e", "limpieza_s"] = 1 ∧
    df2.rows.length = 1 := by
  refine ⟨by decide, ?_, by decide, by decide, rfl⟩
  simp [total_grupo, columnas_existentes, col_sum, columna, df2, get_cell, cell_val]
  norm_num

/-!
C3: the coverage ratio of the activity taxonomy.
-/

/-- All taxonomy fields, across the thirteen groups. -/
def todas_columnas_actividades : List String :=
  (grupos_actividades.map Prod.snd).flatten

theorem total_columnas_actividades_eq : total_columnas_actividades = 53 := rfl

/-- The single row of the C3 counterexample table: every taxonomy field
carries 1 except e_concreto, which carries the nonzero value -1. -/
def fila3 : Fila :=
  todas_columnas_actividades.map (fun c =>
    (c, if c = "e_concreto" then Cell.num (-1) else Cell.num 1))

/-- The C3 counterexample table: all taxonomy fields present, one row. -/
def df3 : DataFrame := ⟨todas_columnas_actividades, [fila3]⟩

theorem col_sum_df3 (c : String) : col_sum df3 c = cell_val (get_cell fila3 c) := by
  simp [col_sum, columna, df3]

/-- C3 counterexample: in df3 every taxonomy field is present with a
nonzero value in its only row, yet the coverage ratio is not 1, because
the code counts a column as covered only when its total is strictly
positive and the e_concreto total is -1. -/
theorem C3_counterexample :
    (∀ c ∈ todas_columnas_actividades, c ∈ df3.cols ∧
      ((columna df3 c).any
        (fun v => decide (v ≠ Cell.na) && decide (cell_val v ≠ 0))) = true) ∧
    cobertura_actividades df3 ≠ 1 := by
  constructor
  · decide
  · have h52 : columnas_con_datos df3 = 52 := by
      simp only [columnas_con_datos, col_sum_df3]
      decide
    unfold cobertura_actividades
    rw [h52, total_columnas_actividades_eq]
    norm_num

theorem columnas_con_datos_le (df : DataFrame) :
    columnas_con_datos df ≤ total_columnas_actividades := by
  unfold columnas_con_datos total_columnas_actividades
  apply List.sum_le_sum
  intro g _
  calc ((columnas_existentes df g.2).filter
          (fun c => decide (0 < col_sum df c))).length
      ≤ (columnas_existentes df g.2).length := List.length_filter_le _ _
    _ ≤ g.2.length := List.length_filter_le _ _

/-- C3 amended: the coverage ratio columnas_con_datos over the taxonomy
size always lies in the unit interval, it equals exactly 1 when every
taxonomy field is present with a strictly positive column total, and the
reported percentage is this ratio times 100. -/
theorem C3_cobertura (df : DataFrame) :
    (0 ≤ cobertura_actividades df ∧ cobertura_actividades df ≤ 1) ∧
    ((∀ p ∈ grupos_actividades, ∀ c ∈ p.2, c ∈ df.cols ∧ 0 < col_sum df c) →
      cobertura_actividades df = 1) ∧
    porcentaje_cobertura df = cobertura_actividades df * 100 := by
  refine ⟨⟨?_, ?_⟩, ?_, ?_⟩
  · exact div_nonneg (Nat.cast_nonneg _) (Nat.cast_nonneg _)
  · unfold cobertura_actividades
    rw [div_le_one (by rw [total_columnas_actividades_eq]; norm_num :
        (0 : ℚ) < (total_columnas_actividades : ℚ))]
    exact_mod_cast columnas_con_datos_le df
  · intro h
    have hfull : columnas_con_datos df = total_columnas_actividades := by
      unfold columnas_con_datos total_columnas_actividades
      congr 1
      apply List.map_congr_left
      intro g hg
      have hex : columnas_existentes df g.2 = g.2 := by
        apply List.filter_eq_self.mpr
        intro c hc
        simpa using (h g hg c hc).1
      rw [hex]
      have hpos : g.2.filter (fun c => decide (0 < col_sum df c)) = g.2 := by
        apply List.filter_eq_self.mpr
        intro c hc
        simpa using (h g hg c hc).2
      rw [hpos]
    unfold cobertura_actividades
    rw [hfull]
    exact div_self (by rw [total_columnas_actividades_eq]; norm_num)
  · unfold porcentaje_cobertura cobertura_actividades
    rw [if_pos (by rw [total_columnas_actividades_eq]; norm_num)]

/-- The full-coverage table: every taxonomy field present, one row with
every value 1. -/
def fila_full : Fila := todas_columnas_actividades.map (fun c => (c, Cell.num 1))

def df_full : DataFrame := ⟨todas_columnas_actividades, [fila_full]⟩

theorem col_sum_df_full (c : String) :
    col_sum df_full c = cell_val (get_cell fila_full c) := by
  simp [col_sum, columna, df_full]

/-- Instance of C3 amended with the hypothesis discharged: the
full-coverage table attains coverage ratio exactly 1. -/
theorem C3_cobertura_witness : cobertura_actividades df_full = 1 := by
  have hdec : ∀ p ∈ grupos_actividades, ∀ c ∈ p.2, c ∈ df_full.cols ∧
      0 < cell_val (get_cell fila_full c) := by decide
  refine (C3_cobertura df_full).2.1 ?_
  intro p hp c hc
  obtain ⟨h1, h2⟩ := hdec p hp c hc
  exact ⟨h1, by rw [col_sum_df_full]; exact h2⟩

/-!
C7: order independence of the aggregation rollups.
-/

/-- The human-resources columns of analizar_recursos_humanos. -/
def columnas_rrhh : List String :=
  ["cant_ayuda", "cant_ofici", "cant_opera", "cant_auxil", "cant_otros",
   "num_total_", "total_hora"]

/-- The numeric content of a cell, when it has one. -/
def cell_num? : Cell → Option ℚ
  | Cell.num q => some q
  | _ => none

/-- Count of non-missing numeric entries, as Series.count. -/
def cuenta_num (cells : List Cell) : Nat := (cells.filter es_num).length

/-- Series.mean with skipna: the sum over the count of numeric entries.
The empty-column NaN is represented by the division-by-zero value 0. -/
def col_mean (df : DataFrame) (c : String) : ℚ :=
  col_sum df c / (cuenta_num (columna df c) : ℚ)

/-- Series.max with skipna; an all-missing column yields bottom. -/
def col_max (df : DataFrame) (c : String) : WithBot ℚ :=
  ((columna df c).filterMap cell_num?).foldl
    (fun b q => max b (WithBot.some q)) ⊥

/-- Series.min with skipna; an all-missing column yields top. -/
def col_min (df : DataFrame) (c : String) : WithTop ℚ :=
  ((columna df c).filterMap cell_num?).foldl
    (fun b q => min b (WithTop.some q)) ⊤

/-- Series.value_counts frequency of one value: occurrences of the value
in the column, missing entries never counted. -/
def value_counts (cells : List Cell) (v : Cell) : Nat :=
  if v = Cell.na then 0 else cells.count v

/-- The record built by analizar_recursos_humanos: category sums, grand
totals and per-record means. -/
structure AnalisisRRHH where
  total_ayudantes : ℚ
  total_oficiales : ℚ
  total_operadores : ℚ
  total_auxiliares : ℚ
  total_otros : ℚ
  total_trabajadores : ℚ
  total_horas_trabajadas : ℚ
  promedio_trabajadores_por_obra : ℚ
  promedio_horas_por_obra : ℚ
deriving DecidableEq, Repr

/-- AnalisisSurvey123.analizar_recursos_humanos: none when no
human-resources column exists, otherwise each sum or mean guarded by the
presence of its column. -/
def analizar_recursos_humanos (df : DataFrame) : Option AnalisisRRHH :=
  if columnas_rrhh.filter (fun c => decide (c ∈ df.cols)) = [] then none
  else some
    { total_ayudantes := if "cant_ayuda" ∈ df.cols then col_sum df "cant_ayuda" else 0
      total_oficiales := if "cant_ofici" ∈ df.cols then col_sum df "cant_ofici" else 0
      total_operadores := if "cant_opera" ∈ df.cols then col_sum df "cant_opera" else 0
      total_auxiliares := if "cant_auxil" ∈ df.cols then col_sum df "cant_auxil" else 0
      total_otros := if "cant_otros" ∈ df.cols then col_sum df "cant_otros" else 0
      total_trabajadores := if "num_total_" ∈ df.cols then col_sum df "num_total_" else 0
      total_horas_trabajadas := if "total_hora" ∈ df.cols then col_sum df "total_hora" else 0
      promedio_trabajadores_por_obra :=
        if "num_total_" ∈ df.cols then col_mean df "num_total_" else 0
      promedio_horas_por_obra :=
        if "total_hora" ∈ df.cols then col_mean df "total_hora" else 0 }

theorem foldl_perm_conm {α β : Type} (f : β → α → β)
    (hf : ∀ b a₁ a₂, f (f b a₁) a₂ = f (f b a₂) a₁) :
    ∀ {l₁ l₂ : List α}, l₁.Perm l₂ → ∀ b, l₁.foldl f b = l₂.foldl f b := by
  intro l₁ l₂ h
  induction h with
  | nil => intro b; rfl
  | cons x _ ih => intro b; simp only [List.foldl_cons]; exact ih _
  | swap x y l => intro b; simp only [List.foldl_cons]; rw [hf]
  | trans _ _ ih1 ih2 => intro b; rw [ih1, ih2]

theorem columna_perm {df df' : DataFrame} (hperm : df.rows.Perm df'.rows)
    (c : String) : (columna df c).Perm (columna df' c) :=
  hperm.map _

/-- C7: permuting the rows of the table changes no column sum, no mean,
no maximum, no minimum, no per-value frequency count, and none of the
human-resources rollup; only the ordering of frequency rankings can
differ. -/
theorem C7_orden_independiente (df df' : DataFrame)
    (hcols : df.cols = df'.cols) (hperm : df.rows.Perm df'.rows) :
    analizar_recursos_humanos df = analizar_recursos_humanos df' ∧
    (∀ c, col_sum df c = col_sum df' c) ∧
    (∀ c, col_mean df c = col_mean df' c) ∧
    (∀ c, col_max df c = col_max df' c) ∧
    (∀ c, col_min df c = col_min df' c) ∧
    (∀ c v, value_counts (columna df c) v = value_counts (columna df' c) v) := by
  have hsum : ∀ c, col_sum df c = col_sum df' c := by
    intro c
    exact ((columna_perm hperm c).map cell_val).sum_eq
  have hcuenta : ∀ c, cuenta_num (columna df c) = cuenta_num (columna df' c) := by
    intro c
    exact ((columna_perm hperm c).filter es_num).length_eq
  have hmean : ∀ c, col_mean df c = col_mean df' c := by
    intro c
    unfold col_mean
    rw [hsum, hcuenta]
  have hmax : ∀ c, col_max df c = col_max df' c := by
    intro c
    unfold col_max
    exact foldl_perm_conm (fun (b : WithBot ℚ) (q : ℚ) => max b (WithBot.some q))
      (fun b a₁ a₂ => by
        show max (max b (WithBot.some a₁)) (WithBot.some a₂) =
          max (max b (WithBot.some a₂)) (WithBot.some a₁)
        rw [max_assoc, max_comm (WithBot.some a₁), ← max_assoc])
      ((columna_perm hperm c).filterMap cell_num?) ⊥
  have hmin : ∀ c, col_min df c = col_min df' c := by
    intro c
    unfold col_min
    exact foldl_perm_conm (fun (b : WithTop ℚ) (q : ℚ) => min b (WithTop.some q))
      (fun b a₁ a₂ => by
        show min (min b (WithTop.some a₁)) (WithTop.some a₂) =
          min (min b (WithTop.some a₂)) (WithTop.some a₁)
        rw [min_assoc, min_comm (WithTop.some a₁), ← min_assoc])
      ((columna_perm hperm c).filterMap cell_num?) ⊤
  have hvc : ∀ c v, value_counts (columna df c) v = value_counts (columna df' c) v := by
    intro c v
    unfold value_counts
    rw [(columna_perm hperm c).count_eq]
  refine ⟨?_, hsum, hmean, hmax, hmin, hvc⟩
  unfold analizar_recursos_humanos
  simp only [hcols, hsum, hmean]

/-- The two-row table and its row-swapped permutation. -/
def filaP1 : Fila := [("num_total_", Cell.num 3)]

def filaP2 : Fila := [("num_total_", Cell.num 7)]

/-- Instance of C7 with the hypotheses discharged: swapping the two rows
of a concrete table leaves the human-resources rollup unchanged. -/
theorem C7_orden_independiente_witness :
    analizar_recursos_humanos ⟨["num_total_"], [filaP1, filaP2]⟩ =
      analizar_recursos_humanos ⟨["num_total_"], [filaP2, filaP1]⟩ :=
  (C7_orden_independiente ⟨["num_total_"], [filaP1, filaP2]⟩
    ⟨["num_total_"], [filaP2, filaP1]⟩ rfl (List.Perm.swap filaP2 filaP1 [])).1


